import Mathlib

/-!
A verification development of the single-field GraphQL query resolution
pipeline of `graphql/resolve/query.go`: the store-backed `queryResolver`,
the HTTP-backed `httpResolver`, the function adapters, and the no-op and
introspection executors.

Modelling conventions.  Go nil-able pointers, slices and errors become
`Option`; byte slices become `List Nat`; the opaque collaborator
interfaces (`QueryRewriter`, `QueryExecutor`, `ResultCompleter`), the
embedded HTTP client's `Do` and the standard library's `http.NewRequest`
become function values the resolvers hold or take as arguments, so every
theorem quantifies over all their behaviours.  `context.Context` and the
native query type `gql.GraphQuery` are opaque type parameters.  Each
resolver function returns, next to its result, the ordered trace of the
collaborator calls it makes, so that claims about which collaborator runs,
with which arguments and how often, are statable.
-/

namespace DgraphResolve

/-- Byte strings (Go `[]byte`); a Go nil slice is `none` at the use sites
where the code distinguishes nil. -/
abbrev Bytes := List Nat

/-- Errors as this file observes them: an underlying error with a message,
or a wrap of a cause with a context message. -/
inductive GError where
  | base (msg : String)
  | wrap (msg : String) (cause : GError)
deriving DecidableEq, Repr

/-- Whether an error is a wrap (carries a context message over a cause). -/
def GError.isWrap : GError → Bool
  | .wrap _ _ => true
  | _ => false

/-- Modelled from the spec: `schema.GQLWrapf(err, format, args...)` lives in
package `graphql/schema`, outside this file; per the spec it wraps the error
with the formatted context message, "preserving the underlying error for
programmatic inspection (cause chain)".  Call sites pass the already
formatted message. -/
def GQLWrapf (err : GError) (msg : String) : GError := GError.wrap msg err

/-- The HTTP resolution descriptor a query field carries (method, URL,
body), as returned by `schema.Query.HTTPResolver()`. -/
structure HttpResolverConfig where
  Method : String
  URL : String
  Body : String
deriving DecidableEq, Repr

/-- The slice of the opaque `schema.Query` interface that
`graphql/resolve/query.go` observes: the field's response name (used in
error messages) and the outcome of its `HTTPResolver()` accessor. -/
structure Query where
  responseName : String
  httpRes : HttpResolverConfig × Option GError
deriving DecidableEq, Repr

/-- `query.ResponseName()`. -/
def Query.ResponseName (q : Query) : String := q.responseName

/-- `query.HTTPResolver()`: Go returns the pair `(hrc, err)`. -/
def Query.HTTPResolver (q : Query) : HttpResolverConfig × Option GError := q.httpRes

/-- The outcome of resolving one query field (`Resolved` in the source):
completed payload bytes plus an optional error. -/
structure Resolved where
  Data : Option Bytes
  Err : Option GError
deriving DecidableEq, Repr

variable {Ctx GraphQuery Req : Type}

/-- A `QueryRewriter` builds a Dgraph `gql.GraphQuery` from a GraphQL
query: `Rewrite(ctx, q) -> (*gql.GraphQuery, error)`. -/
def QueryRewriter (Ctx GraphQuery : Type) : Type :=
  Ctx → Query → Option GraphQuery × Option GError

/-- A `QueryExecutor` runs a `gql.GraphQuery` and returns a raw result:
`Query(ctx, query) -> ([]byte, error)`. -/
def QueryExecutor (Ctx GraphQuery : Type) : Type :=
  Ctx → Option GraphQuery → Option Bytes × Option GError

/-- A `ResultCompleter` turns `(ctx, query, rawResult, rawErr)` into the
completed payload and final error. -/
def ResultCompleter (Ctx : Type) : Type :=
  Ctx → Query → Option Bytes → Option GError → Option Bytes × Option GError

/-- `QueryRewritingFunc`: the function adapter is the same shape as the
interface in this embedding. -/
abbrev QueryRewritingFunc (Ctx GraphQuery : Type) := QueryRewriter Ctx GraphQuery

/-- `QueryExecutionFunc`: the function adapter for `QueryExecutor`. -/
abbrev QueryExecutionFunc (Ctx GraphQuery : Type) := QueryExecutor Ctx GraphQuery

/-- `NoOpQueryExecution()`: does nothing and returns `(nil, nil)`. -/
def NoOpQueryExecution : QueryExecutionFunc Ctx GraphQuery :=
  fun _ _ => (none, none)

/-- `NoOpQueryRewrite()`: does nothing and returns a nil rewriting. -/
def NoOpQueryRewrite : QueryRewritingFunc Ctx GraphQuery :=
  fun _ _ => (none, none)

/-- `introspectionExecution(q)`: an executor that returns
`schema.Introspect(q)` for the query field `q` bound at construction.
`schema.Introspect` lives in package `graphql/schema` and is passed in as
the function `Introspect`. -/
def introspectionExecution (Introspect : Query → Option Bytes × Option GError)
    (q : Query) : QueryExecutionFunc Ctx GraphQuery :=
  fun _ _ => Introspect q

/-- The store-backed resolver: holds its three collaborators. -/
structure queryResolver (Ctx GraphQuery : Type) where
  queryRewriter : QueryRewriter Ctx GraphQuery
  queryExecutor : QueryExecutor Ctx GraphQuery
  resultCompleter : ResultCompleter Ctx

/-- `NewQueryResolver(qr, qe, rc)`. -/
def NewQueryResolver (qr : QueryRewriter Ctx GraphQuery)
    (qe : QueryExecutor Ctx GraphQuery) (rc : ResultCompleter Ctx) :
    queryResolver Ctx GraphQuery :=
  { queryRewriter := qr, queryExecutor := qe, resultCompleter := rc }

/-- Trace events of one store-backed resolution, in call order. -/
inductive QEvent (GraphQuery : Type) where
  | rewriteCall (q : Query)
  | executeCall (nq : Option GraphQuery)
  | completeCall (q : Query) (raw : Option Bytes) (err : Option GError)
deriving DecidableEq

/-- Whether a store-path event is an executor invocation. -/
def QEvent.isExecute : QEvent GraphQuery → Bool
  | .executeCall _ => true
  | _ => false

/-- Whether a store-path event is a completer invocation. -/
def QEvent.isComplete : QEvent GraphQuery → Bool
  | .completeCall _ _ _ => true
  | _ => false

/-- `queryResolver.rewriteAndExecute`: rewrite the query; on a rewrite
error return nil bytes and the error wrapped with
"couldn't rewrite query <response name>" without executing; otherwise
execute the rewritten query; on an execute error return nil bytes and the
error wrapped with "Dgraph query failed"; otherwise return the raw result.
The second component is the trace of collaborator calls made. -/
def queryResolver.rewriteAndExecute (r : queryResolver Ctx GraphQuery)
    (ctx : Ctx) (query : Query) :
    (Option Bytes × Option GError) × List (QEvent GraphQuery) :=
  match r.queryRewriter ctx query with
  | (_, some err) =>
      ((none, some (GQLWrapf err ("couldn't rewrite query " ++ query.ResponseName))),
        [QEvent.rewriteCall query])
  | (dgQuery, none) =>
      match r.queryExecutor ctx dgQuery with
      | (_, some err) =>
          ((none, some (GQLWrapf err "Dgraph query failed")),
            [QEvent.rewriteCall query, QEvent.executeCall dgQuery])
      | (resp, none) =>
          ((resp, none),
            [QEvent.rewriteCall query, QEvent.executeCall dgQuery])

/-- `queryResolver.Resolve`: run `rewriteAndExecute`, hand its result and
error to the completer, and return a freshly constructed `Resolved` built
from the completer's output (the Go code returns `&Resolved{...}`, so the
pointer is always non-nil: `some`). -/
def queryResolver.Resolve (r : queryResolver Ctx GraphQuery) (ctx : Ctx)
    (query : Query) : Option Resolved × List (QEvent GraphQuery) :=
  let re := queryResolver.rewriteAndExecute r ctx query
  let comp := r.resultCompleter ctx query re.1.1 re.1.2
  (some { Data := comp.1, Err := comp.2 },
    re.2 ++ [QEvent.completeCall query re.1.1 re.1.2])

/-- An HTTP response as this file consumes it: the outcome of reading its
body in full with `ioutil.ReadAll` (bytes read, read error). -/
structure HttpResponse where
  bodyRead : Option Bytes × Option GError

/-- The HTTP-backed resolver: the embedded `*http.Client` is modelled by
its `Do` method; per the standard library contract a nil error comes with a
non-nil response, so `Do` returns `Except`. -/
structure httpResolver (Ctx GraphQuery Req : Type) where
  Do : Req → Except GError HttpResponse
  httpRewriter : QueryRewriter Ctx GraphQuery
  httpExecutor : QueryExecutor Ctx GraphQuery
  resultCompleter : ResultCompleter Ctx

/-- `NewHTTPResolver(hc, qr, qe, rc)`. -/
def NewHTTPResolver (hc : Req → Except GError HttpResponse)
    (qr : QueryRewriter Ctx GraphQuery) (qe : QueryExecutor Ctx GraphQuery)
    (rc : ResultCompleter Ctx) : httpResolver Ctx GraphQuery Req :=
  { Do := hc, httpRewriter := qr, httpExecutor := qe, resultCompleter := rc }

/-- Trace events of one HTTP-backed resolution, in call order. -/
inductive HEvent (Req : Type) where
  | httpResolverCall (q : Query)
  | newRequestCall (method url body : String)
  | doCall (req : Req)
  | readBodyCall
  | closeBodyCall
  | completeCall (q : Query) (raw : Option Bytes) (err : Option GError)
deriving DecidableEq

/-- Whether an HTTP-path event is a request construction
(`http.NewRequest`). -/
def HEvent.isNewRequest : HEvent Req → Bool
  | .newRequestCall _ _ _ => true
  | _ => false

/-- Whether an HTTP-path event is an outbound request (`hr.Do`). -/
def HEvent.isDo : HEvent Req → Bool
  | .doCall _ => true
  | _ => false

/-- Whether an HTTP-path event is a completer invocation. -/
def HEvent.isHComplete : HEvent Req → Bool
  | .completeCall _ _ _ => true
  | _ => false

/-- `httpResolver.rewriteAndExecute`: ask the query for its HTTP resolution
descriptor, build one request with `http.NewRequest` (standard library,
passed in as `newRequest`), issue it with the client's `Do`, read the whole
body and close it (the deferred `resp.Body.Close()` runs after
`ioutil.ReadAll`, on every exit path once a response was obtained).  Each
failure returns `(nil, err)` with the error unchanged; the body read
returns `(b, err)` as `ReadAll` produced them. -/
def httpResolver.rewriteAndExecute
    (newRequest : String → String → String → Except GError Req)
    (hr : httpResolver Ctx GraphQuery Req) (ctx : Ctx) (query : Query) :
    (Option Bytes × Option GError) × List (HEvent Req) :=
  match query.HTTPResolver with
  | (_, some err) => ((none, some err), [HEvent.httpResolverCall query])
  | (hrc, none) =>
      match newRequest hrc.Method hrc.URL hrc.Body with
      | .error err =>
          ((none, some err),
            [HEvent.httpResolverCall query,
             HEvent.newRequestCall hrc.Method hrc.URL hrc.Body])
      | .ok req =>
          match hr.Do req with
          | .error err =>
              ((none, some err),
                [HEvent.httpResolverCall query,
                 HEvent.newRequestCall hrc.Method hrc.URL hrc.Body,
                 HEvent.doCall req])
          | .ok resp =>
              ((resp.bodyRead.1, resp.bodyRead.2),
                [HEvent.httpResolverCall query,
                 HEvent.newRequestCall hrc.Method hrc.URL hrc.Body,
                 HEvent.doCall req, HEvent.readBodyCall, HEvent.closeBodyCall])

/-- `httpResolver.Resolve`: run the HTTP `rewriteAndExecute`, hand its
result and error to the completer, and return a freshly constructed
`Resolved` built from the completer's output. -/
def httpResolver.Resolve
    (newRequest : String → String → String → Except GError Req)
    (hr : httpResolver Ctx GraphQuery Req) (ctx : Ctx) (query : Query) :
    Option Resolved × List (HEvent Req) :=
  let re := httpResolver.rewriteAndExecute newRequest hr ctx query
  let comp := hr.resultCompleter ctx query re.1.1 re.1.2
  (some { Data := comp.1, Err := comp.2 },
    re.2 ++ [HEvent.completeCall query re.1.1 re.1.2])

/-- The store-path pipeline never emits a completer event itself: only
`Resolve` calls the completer, after `rewriteAndExecute` returns. -/
theorem qtrace_no_complete (r : queryResolver Ctx GraphQuery) (ctx : Ctx)
    (query : Query) :
    (queryResolver.rewriteAndExecute r ctx query).2.countP QEvent.isComplete = 0 := by
  rcases hrw : r.queryRewriter ctx query with ⟨nq, e⟩
  cases e with
  | none =>
      rcases hex : r.queryExecutor ctx nq with ⟨resp, e2⟩
      cases e2 <;>
        simp [queryResolver.rewriteAndExecute, hrw, hex, List.countP_cons,
          List.countP_nil, QEvent.isComplete]
  | some err =>
      simp [queryResolver.rewriteAndExecute, hrw, List.countP_cons,
        List.countP_nil, QEvent.isComplete]

/-- The HTTP-path pipeline never emits a completer event itself: only
`Resolve` calls the completer, after `rewriteAndExecute` returns. -/
theorem htrace_no_complete
    (newRequest : String → String → String → Except GError Req)
    (hr : httpResolver Ctx GraphQuery Req) (ctx : Ctx) (query : Query) :
    (httpResolver.rewriteAndExecute newRequest hr ctx query).2.countP
      HEvent.isHComplete = 0 := by
  rcases hh : query.HTTPResolver with ⟨hrc, e⟩
  cases e with
  | none =>
      cases hnr : newRequest hrc.Method hrc.URL hrc.Body with
      | error err =>
          simp [httpResolver.rewriteAndExecute, hh, hnr, List.countP_cons,
            List.countP_nil, HEvent.isHComplete]
      | ok req =>
          cases hdo : hr.Do req with
          | error err =>
              simp [httpResolver.rewriteAndExecute, hh, hnr, hdo,
                List.countP_cons, List.countP_nil, HEvent.isHComplete]
          | ok resp =>
              simp [httpResolver.rewriteAndExecute, hh, hnr, hdo,
                List.countP_cons, List.countP_nil, HEvent.isHComplete]
  | some err =>
      simp [httpResolver.rewriteAndExecute, hh, List.countP_cons,
        List.countP_nil, HEvent.isHComplete]

/-- Claim C1: for every query field and every behaviour of the rewriter,
executor and completer collaborators, `Resolve` — on both the store-backed
and the HTTP-backed resolver — returns a non-null `Resolved` (the code ends
in a fresh `&Resolved{...}`, `some` here) and never raises a failure to the
caller: the returned value is built from the completer's output, so every
failure is captured inside the returned `Resolved.Err`. -/
theorem resolve_total_and_err_captured
    (r : queryResolver Ctx GraphQuery) (hr : httpResolver Ctx GraphQuery Req)
    (newRequest : String → String → String → Except GError Req)
    (ctx : Ctx) (query : Query) :
    (∃ raw err, (queryResolver.Resolve r ctx query).1 =
        some { Data := (r.resultCompleter ctx query raw err).1,
               Err := (r.resultCompleter ctx query raw err).2 }) ∧
    (∃ raw err, (httpResolver.Resolve newRequest hr ctx query).1 =
        some { Data := (hr.resultCompleter ctx query raw err).1,
               Err := (hr.resultCompleter ctx query raw err).2 }) :=
  ⟨⟨_, _, rfl⟩, ⟨_, _, rfl⟩⟩

/-- Claim C2: on every execution path of `Resolve` (rewrite success,
rewrite failure, execute failure, HTTP-path failure) the completer is
invoked exactly once, with the query and the raw-result/error pair the
pipeline produced, and the `Resolved` returned to the caller is exactly the
pair the completer returned. -/
theorem completer_called_exactly_once
    (r : queryResolver Ctx GraphQuery) (hr : httpResolver Ctx GraphQuery Req)
    (newRequest : String → String → String → Except GError Req)
    (ctx : Ctx) (query : Query) :
    ((queryResolver.Resolve r ctx query).2.countP QEvent.isComplete = 1 ∧
     ∃ raw err,
       QEvent.completeCall query raw err ∈ (queryResolver.Resolve r ctx query).2 ∧
       (queryResolver.Resolve r ctx query).1 =
         some { Data := (r.resultCompleter ctx query raw err).1,
                Err := (r.resultCompleter ctx query raw err).2 }) ∧
    ((httpResolver.Resolve newRequest hr ctx query).2.countP HEvent.isHComplete = 1 ∧
     ∃ raw err,
       HEvent.completeCall query raw err ∈
         (httpResolver.Resolve newRequest hr ctx query).2 ∧
       (httpResolver.Resolve newRequest hr ctx query).1 =
         some { Data := (hr.resultCompleter ctx query raw err).1,
                Err := (hr.resultCompleter ctx query raw err).2 }) := by
  refine ⟨⟨?_, ?_⟩, ⟨?_, ?_⟩⟩
  · simp [queryResolver.Resolve, List.countP_append, qtrace_no_complete,
      List.countP_cons, List.countP_nil, QEvent.isComplete]
  · refine ⟨(queryResolver.rewriteAndExecute r ctx query).1.1,
      (queryResolver.rewriteAndExecute r ctx query).1.2, ?_, rfl⟩
    simp [queryResolver.Resolve]
  · simp [httpResolver.Resolve, List.countP_append, htrace_no_complete,
      List.countP_cons, List.countP_nil, HEvent.isHComplete]
  · refine ⟨(httpResolver.rewriteAndExecute newRequest hr ctx query).1.1,
      (httpResolver.rewriteAndExecute newRequest hr ctx query).1.2, ?_, rfl⟩
    simp [httpResolver.Resolve]

/-- Claim C3: if the rewriter returns a non-nil error, the executor is
never invoked during that `Resolve` call, and the completer receives a nil
raw result together with the rewriter's error wrapped with the context
"couldn't rewrite query <field-response-name>". -/
theorem rewrite_failure_skips_executor
    (r : queryResolver Ctx GraphQuery) (ctx : Ctx) (query : Query)
    (nq : Option GraphQuery) (e : GError)
    (hrw : r.queryRewriter ctx query = (nq, some e)) :
    (queryResolver.Resolve r ctx query).2 =
      [QEvent.rewriteCall query,
       QEvent.completeCall query none
         (some (GQLWrapf e ("couldn't rewrite query " ++ query.ResponseName)))] ∧
    (queryResolver.Resolve r ctx query).2.countP QEvent.isExecute = 0 := by
  have h : queryResolver.rewriteAndExecute r ctx query =
      ((none, some (GQLWrapf e ("couldn't rewrite query " ++ query.ResponseName))),
        [QEvent.rewriteCall query]) := by
    simp [queryResolver.rewriteAndExecute, hrw]
  refine ⟨?_, ?_⟩ <;>
    simp [queryResolver.Resolve, h, List.countP_cons, List.countP_nil,
      QEvent.isExecute]

/-- Concrete query field used by the witnesses. -/
def wQuery : Query :=
  { responseName := "getAuthor",
    httpRes := ({ Method := "GET", URL := "u", Body := "" }, none) }

/-- Concrete store-backed resolver whose rewriter fails. -/
def wRewriteFail : queryResolver Unit Unit :=
  { queryRewriter := fun _ _ => (none, some (GError.base "E")),
    queryExecutor := fun _ _ => (none, none),
    resultCompleter := fun _ _ raw err => (raw, err) }

/-- Witness for claim C3's theorem at a concrete resolver and field. -/
theorem rewrite_failure_skips_executor_witness :
    (queryResolver.Resolve wRewriteFail () wQuery).2 =
      [QEvent.rewriteCall wQuery,
       QEvent.completeCall wQuery none
         (some (GQLWrapf (GError.base "E")
           ("couldn't rewrite query " ++ wQuery.ResponseName)))] ∧
    (queryResolver.Resolve wRewriteFail () wQuery).2.countP QEvent.isExecute = 0 :=
  rewrite_failure_skips_executor wRewriteFail () wQuery none (GError.base "E") rfl

/-- Claim C4: if the rewriter succeeds and the executor returns a non-nil
error, the completer receives a nil raw result together with the executor's
error wrapped with "Dgraph query failed", and the native query from the
rewrite step is consumed by exactly that one executor call — it is not used
again after the failed execution. -/
theorem execute_failure_completer_input
    (r : queryResolver Ctx GraphQuery) (ctx : Ctx) (query : Query)
    (nq : Option GraphQuery) (raw : Option Bytes) (e : GError)
    (hrw : r.queryRewriter ctx query = (nq, none))
    (hex : r.queryExecutor ctx nq = (raw, some e)) :
    (queryResolver.Resolve r ctx query).2 =
      [QEvent.rewriteCall query, QEvent.executeCall nq,
       QEvent.completeCall query none
         (some (GQLWrapf e "Dgraph query failed"))] ∧
    (queryResolver.Resolve r ctx query).2.countP QEvent.isExecute = 1 := by
  have h : queryResolver.rewriteAndExecute r ctx query =
      ((none, some (GQLWrapf e "Dgraph query failed")),
        [QEvent.rewriteCall query, QEvent.executeCall nq]) := by
    simp [queryResolver.rewriteAndExecute, hrw, hex]
  refine ⟨?_, ?_⟩ <;>
    simp [queryResolver.Resolve, h, List.countP_cons, List.countP_nil,
      QEvent.isExecute]

/-- Concrete store-backed resolver whose rewriter succeeds and whose
executor fails. -/
def wExecFail : queryResolver Unit Unit :=
  { queryRewriter := fun _ _ => (some (), none),
    queryExecutor := fun _ _ => (none, some (GError.base "X")),
    resultCompleter := fun _ _ raw err => (raw, err) }

/-- Witness for claim C4's theorem at a concrete resolver and field. -/
theorem execute_failure_completer_input_witness :
    (queryResolver.Resolve wExecFail () wQuery).2 =
      [QEvent.rewriteCall wQuery, QEvent.executeCall (some ()),
       QEvent.completeCall wQuery none
         (some (GQLWrapf (GError.base "X") "Dgraph query failed"))] ∧
    (queryResolver.Resolve wExecFail () wQuery).2.countP QEvent.isExecute = 1 :=
  execute_failure_completer_input wExecFail () wQuery (some ()) none
    (GError.base "X") rfl rfl

/-- Concrete query field whose `HTTPResolver()` accessor fails. -/
def wQueryBadDescriptor : Query :=
  { responseName := "myRemoteField",
    httpRes := ({ Method := "GET", URL := "u", Body := "" }, some (GError.base "boom")) }

/-- Concrete HTTP-backed resolver with echo collaborators. -/
def wHttp : httpResolver Unit Unit Unit :=
  { Do := fun _ => Except.ok { bodyRead := (none, none) },
    httpRewriter := fun _ _ => (none, none),
    httpExecutor := fun _ _ => (none, none),
    resultCompleter := fun _ _ raw err => (raw, err) }

/-- Claim C5 counterexample: on the HTTP path an error crossing a
collaborator boundary is handed onward unchanged, not wrapped.  For the
field `myRemoteField` whose descriptor accessor fails with the base error
"boom", the error handed to completion is exactly that base error — it is
no wrap at all, so it carries neither a stage label nor the field's
response name. -/
theorem http_error_not_wrapped :
    (httpResolver.rewriteAndExecute (fun _ _ _ => Except.ok ()) wHttp ()
        wQueryBadDescriptor).1.2 = some (GError.base "boom") ∧
    GError.isWrap (GError.base "boom") = false :=
  ⟨rfl, rfl⟩

/-- Claim C5 as amended: in the store-backed pipeline the rewriter's error
is handed onward wrapped with "couldn't rewrite query <response name>" and
the executor's error wrapped with the stage label "Dgraph query failed"
(with no response name), in both cases preserving the underlying error as
the wrap's cause; in the HTTP path the errors of the descriptor, request
construction, transport and body-read steps are handed onward unchanged,
with no wrapping. -/
theorem error_wrapping_as_implemented
    (r : queryResolver Ctx GraphQuery) (hr : httpResolver Ctx GraphQuery Req)
    (newRequest : String → String → String → Except GError Req)
    (ctx : Ctx) (query : Query) :
    (∀ nq e, r.queryRewriter ctx query = (nq, some e) →
      (queryResolver.rewriteAndExecute r ctx query).1.2 =
        some (GError.wrap ("couldn't rewrite query " ++ query.ResponseName) e)) ∧
    (∀ nq raw e, r.queryRewriter ctx query = (nq, none) →
      r.queryExecutor ctx nq = (raw, some e) →
      (queryResolver.rewriteAndExecute r ctx query).1.2 =
        some (GError.wrap "Dgraph query failed" e)) ∧
    (∀ hrc e, query.HTTPResolver = (hrc, some e) →
      (httpResolver.rewriteAndExecute newRequest hr ctx query).1.2 = some e) ∧
    (∀ hrc e, query.HTTPResolver = (hrc, none) →
      newRequest hrc.Method hrc.URL hrc.Body = Except.error e →
      (httpResolver.rewriteAndExecute newRequest hr ctx query).1.2 = some e) ∧
    (∀ hrc req e, query.HTTPResolver = (hrc, none) →
      newRequest hrc.Method hrc.URL hrc.Body = Except.ok req →
      hr.Do req = Except.error e →
      (httpResolver.rewriteAndExecute newRequest hr ctx query).1.2 = some e) ∧
    (∀ hrc req resp b e, query.HTTPResolver = (hrc, none) →
      newRequest hrc.Method hrc.URL hrc.Body = Except.ok req →
      hr.Do req = Except.ok resp → resp.bodyRead = (b, some e) →
      (httpResolver.rewriteAndExecute newRequest hr ctx query).1.2 = some e) := by
  refine ⟨?_, ?_, ?_, ?_, ?_, ?_⟩
  · intro nq e hrw
    simp [queryResolver.rewriteAndExecute, hrw, GQLWrapf]
  · intro nq raw e hrw hex
    simp [queryResolver.rewriteAndExecute, hrw, hex, GQLWrapf]
  · intro hrc e hh
    simp [httpResolver.rewriteAndExecute, hh]
  · intro hrc e hh hnr
    simp [httpResolver.rewriteAndExecute, hh, hnr]
  · intro hrc req e hh hnr hdo
    simp [httpResolver.rewriteAndExecute, hh, hnr, hdo]
  · intro hrc req resp b e hh hnr hdo hb
    simp [httpResolver.rewriteAndExecute, hh, hnr, hdo, hb]

/-- Concrete query field with a usable HTTP descriptor. -/
def wQueryRemote : Query :=
  { responseName := "myRemoteField",
    httpRes := ({ Method := "GET", URL := "u", Body := "b" }, none) }

/-- Concrete HTTP-backed resolver whose transport fails. -/
def wHttpDoFail : httpResolver Unit Unit Unit :=
  { Do := fun _ => Except.error (GError.base "net"),
    httpRewriter := fun _ _ => (none, none),
    httpExecutor := fun _ _ => (none, none),
    resultCompleter := fun _ _ raw err => (raw, err) }

/-- Concrete HTTP-backed resolver whose body read fails. -/
def wHttpReadFail : httpResolver Unit Unit Unit :=
  { Do := fun _ => Except.ok { bodyRead := (some [1], some (GError.base "rd")) },
    httpRewriter := fun _ _ => (none, none),
    httpExecutor := fun _ _ => (none, none),
    resultCompleter := fun _ _ raw err => (raw, err) }

/-- Witness for claim C5's amended theorem: each of its six conclusions at
a concrete resolver, field and collaborator behaviour. -/
theorem error_wrapping_as_implemented_witness :
    ((queryResolver.rewriteAndExecute wRewriteFail () wQuery).1.2 =
      some (GError.wrap ("couldn't rewrite query " ++ wQuery.ResponseName)
        (GError.base "E"))) ∧
    ((queryResolver.rewriteAndExecute wExecFail () wQuery).1.2 =
      some (GError.wrap "Dgraph query failed" (GError.base "X"))) ∧
    ((httpResolver.rewriteAndExecute (fun _ _ _ => Except.ok ()) wHttp ()
        wQueryBadDescriptor).1.2 = some (GError.base "boom")) ∧
    ((httpResolver.rewriteAndExecute (fun _ _ _ => Except.error (GError.base "badurl"))
        wHttp () wQueryRemote).1.2 = some (GError.base "badurl")) ∧
    ((httpResolver.rewriteAndExecute (fun _ _ _ => Except.ok ()) wHttpDoFail ()
        wQueryRemote).1.2 = some (GError.base "net")) ∧
    ((httpResolver.rewriteAndExecute (fun _ _ _ => Except.ok ()) wHttpReadFail ()
        wQueryRemote).1.2 = some (GError.base "rd")) :=
  ⟨(error_wrapping_as_implemented wRewriteFail wHttp (fun _ _ _ => Except.ok ())
      () wQuery).1 none (GError.base "E") rfl,
   (error_wrapping_as_implemented wExecFail wHttp (fun _ _ _ => Except.ok ())
      () wQuery).2.1 (some ()) none (GError.base "X") rfl rfl,
   (error_wrapping_as_implemented wRewriteFail wHttp (fun _ _ _ => Except.ok ())
      () wQueryBadDescriptor).2.2.1 _ (GError.base "boom") rfl,
   (error_wrapping_as_implemented wRewriteFail wHttp
      (fun _ _ _ => Except.error (GError.base "badurl")) () wQueryRemote).2.2.2.1
      _ (GError.base "badurl") rfl rfl,
   (error_wrapping_as_implemented wRewriteFail wHttpDoFail
      (fun _ _ _ => Except.ok ()) () wQueryRemote).2.2.2.2.1
      _ () (GError.base "net") rfl rfl rfl,
   (error_wrapping_as_implemented wRewriteFail wHttpReadFail
      (fun _ _ _ => Except.ok ()) () wQueryRemote).2.2.2.2.2
      _ () { bodyRead := (some [1], some (GError.base "rd")) } (some [1])
      (GError.base "rd") rfl rfl rfl rfl⟩

/-- Claim C6: for the HTTP-backed resolver, if the field's `HTTPResolver()`
accessor returns a non-nil error, no outbound HTTP request is constructed
or issued during that `Resolve` call, and the completer receives a nil raw
result with that non-nil error. -/
theorem http_descriptor_failure_no_request
    (hr : httpResolver Ctx GraphQuery Req)
    (newRequest : String → String → String → Except GError Req)
    (ctx : Ctx) (query : Query) (hrc : HttpResolverConfig) (e : GError)
    (h : query.HTTPResolver = (hrc, some e)) :
    (httpResolver.Resolve newRequest hr ctx query).2 =
      [HEvent.httpResolverCall query, HEvent.completeCall query none (some e)] ∧
    (httpResolver.Resolve newRequest hr ctx query).2.countP HEvent.isNewRequest = 0 ∧
    (httpResolver.Resolve newRequest hr ctx query).2.countP HEvent.isDo = 0 := by
  have hre : httpResolver.rewriteAndExecute newRequest hr ctx query =
      ((none, some e), [HEvent.httpResolverCall query]) := by
    simp [httpResolver.rewriteAndExecute, h]
  refine ⟨?_, ?_, ?_⟩ <;>
    simp [httpResolver.Resolve, hre, List.countP_cons, List.countP_nil,
      HEvent.isNewRequest, HEvent.isDo]

/-- Witness for claim C6's theorem at a concrete resolver and field. -/
theorem http_descriptor_failure_no_request_witness :
    (httpResolver.Resolve (fun _ _ _ => Except.ok ()) wHttp ()
        wQueryBadDescriptor).2 =
      [HEvent.httpResolverCall wQueryBadDescriptor,
       HEvent.completeCall wQueryBadDescriptor none (some (GError.base "boom"))] ∧
    (httpResolver.Resolve (fun _ _ _ => Except.ok ()) wHttp ()
        wQueryBadDescriptor).2.countP HEvent.isNewRequest = 0 ∧
    (httpResolver.Resolve (fun _ _ _ => Except.ok ()) wHttp ()
        wQueryBadDescriptor).2.countP HEvent.isDo = 0 :=
  http_descriptor_failure_no_request wHttp (fun _ _ _ => Except.ok ()) ()
    wQueryBadDescriptor { Method := "GET", URL := "u", Body := "" }
    (GError.base "boom") rfl

/-- Claim C7: for the HTTP-backed resolver, once a response is obtained the
body is read and then released (closed) before the resolver returns, on
every exit path — including a failed body read, whose partial bytes and
error go to the completer as read; and when the body read succeeds the
completer receives exactly the response body bytes together with a nil
error. -/
theorem http_body_delivery_and_close
    (hr : httpResolver Ctx GraphQuery Req)
    (newRequest : String → String → String → Except GError Req)
    (ctx : Ctx) (query : Query) (hrc : HttpResolverConfig) (req : Req)
    (resp : HttpResponse)
    (h1 : query.HTTPResolver = (hrc, none))
    (h2 : newRequest hrc.Method hrc.URL hrc.Body = Except.ok req)
    (h3 : hr.Do req = Except.ok resp) :
    (httpResolver.Resolve newRequest hr ctx query).2 =
      [HEvent.httpResolverCall query,
       HEvent.newRequestCall hrc.Method hrc.URL hrc.Body,
       HEvent.doCall req, HEvent.readBodyCall, HEvent.closeBodyCall,
       HEvent.completeCall query resp.bodyRead.1 resp.bodyRead.2] ∧
    HEvent.closeBodyCall ∈ (httpResolver.Resolve newRequest hr ctx query).2 ∧
    (∀ b, resp.bodyRead = (b, none) →
      HEvent.completeCall query b none ∈
        (httpResolver.Resolve newRequest hr ctx query).2) := by
  have hre : httpResolver.rewriteAndExecute newRequest hr ctx query =
      ((resp.bodyRead.1, resp.bodyRead.2),
        [HEvent.httpResolverCall query,
         HEvent.newRequestCall hrc.Method hrc.URL hrc.Body,
         HEvent.doCall req, HEvent.readBodyCall, HEvent.closeBodyCall]) := by
    simp [httpResolver.rewriteAndExecute, h1, h2, h3]
  refine ⟨?_, ?_, ?_⟩
  · simp [httpResolver.Resolve, hre]
  · simp [httpResolver.Resolve, hre]
  · intro b hb
    simp [httpResolver.Resolve, hre, hb]

/-- Concrete HTTP-backed resolver whose request succeeds with body bytes
`[7, 8]`. -/
def wHttpOk : httpResolver Unit Unit Unit :=
  { Do := fun _ => Except.ok { bodyRead := (some [7, 8], none) },
    httpRewriter := fun _ _ => (none, none),
    httpExecutor := fun _ _ => (none, none),
    resultCompleter := fun _ _ raw err => (raw, err) }

/-- Witness for claim C7's theorem at a concrete resolver and field. -/
theorem http_body_delivery_and_close_witness :
    (httpResolver.Resolve (fun _ _ _ => Except.ok ()) wHttpOk () wQueryRemote).2 =
      [HEvent.httpResolverCall wQueryRemote,
       HEvent.newRequestCall "GET" "u" "b",
       HEvent.doCall (), HEvent.readBodyCall, HEvent.closeBodyCall,
       HEvent.completeCall wQueryRemote (some [7, 8]) none] ∧
    HEvent.closeBodyCall ∈
      (httpResolver.Resolve (fun _ _ _ => Except.ok ()) wHttpOk () wQueryRemote).2 ∧
    (∀ b, (({ bodyRead := (some [7, 8], none) } : HttpResponse)).bodyRead = (b, none) →
      HEvent.completeCall wQueryRemote b none ∈
        (httpResolver.Resolve (fun _ _ _ => Except.ok ()) wHttpOk () wQueryRemote).2) :=
  http_body_delivery_and_close wHttpOk (fun _ _ _ => Except.ok ()) ()
    wQueryRemote { Method := "GET", URL := "u", Body := "b" } ()
    { bodyRead := (some [7, 8], none) } rfl rfl rfl

/-- Claim C8: the no-op rewriter returns `(nil, nil)`, the no-op executor
returns `(nil, nil)`, and the store-backed resolver built from the no-op
pair always invokes the completer with a nil raw result and a nil error,
returning whatever the completer produced. -/
theorem noop_pipeline_completer_nil_nil
    (rc : ResultCompleter Ctx) (ctx : Ctx) (query : Query)
    (nq : Option GraphQuery) :
    NoOpQueryRewrite ctx query = ((none : Option GraphQuery), (none : Option GError)) ∧
    NoOpQueryExecution ctx nq = ((none : Option Bytes), (none : Option GError)) ∧
    (queryResolver.Resolve
        (NewQueryResolver NoOpQueryRewrite NoOpQueryExecution rc :
          queryResolver Ctx GraphQuery) ctx query).2 =
      [QEvent.rewriteCall query, QEvent.executeCall none,
       QEvent.completeCall query none none] ∧
    (queryResolver.Resolve
        (NewQueryResolver NoOpQueryRewrite NoOpQueryExecution rc :
          queryResolver Ctx GraphQuery) ctx query).1 =
      some { Data := (rc ctx query none none).1, Err := (rc ctx query none none).2 } :=
  ⟨rfl, rfl, rfl, rfl⟩

/-- Claim C9: the introspection executor ignores its native-query argument —
for a fixed query field `q`, any two native inputs (nil included) give the
same output, the introspection result determined by `q` bound at
construction time. -/
theorem introspection_ignores_input
    (Introspect : Query → Option Bytes × Option GError) (q : Query)
    (ctx : Ctx) (nq1 nq2 : Option GraphQuery) :
    introspectionExecution Introspect q ctx nq1 =
      introspectionExecution Introspect q ctx nq2 ∧
    introspectionExecution Introspect q ctx nq1 = Introspect q :=
  ⟨rfl, rfl⟩

/-- Claim C10: the HTTP-backed resolver's `Resolve` never invokes the
rewriter or executor it was constructed with — two resolvers sharing the
same client and completer but holding any two choices of rewriter and
executor return the identical `Resolved` (and make the identical calls), for
every context, field and client behaviour. -/
theorem http_resolver_ignores_rewriter_executor
    (hc : Req → Except GError HttpResponse) (rc : ResultCompleter Ctx)
    (qr1 qr2 : QueryRewriter Ctx GraphQuery)
    (qe1 qe2 : QueryExecutor Ctx GraphQuery)
    (newRequest : String → String → String → Except GError Req)
    (ctx : Ctx) (query : Query) :
    httpResolver.Resolve newRequest (NewHTTPResolver hc qr1 qe1 rc) ctx query =
      httpResolver.Resolve newRequest (NewHTTPResolver hc qr2 qe2 rc) ctx query :=
  rfl

end DgraphResolve
